import Mathlib

/-!
Verification development for the xiaohongshu-title-tool web application
(single source file `app.py`).

The development shallowly embeds the two components the specification
describes:

* the API client: the request-signing helper `get_auth_string` (HMAC-SHA256
  over a canonical string, base64-encoded) and the outcome classification of
  `call_qianfan_api` wrapped by the 25-second `with_timeout` decorator;
* the async submission controller: the process-wide state
  (`result_queue`, `request_in_progress`, `last_request_time`), the
  background worker `generate_titles_async`, and the POST handler `home`,
  which first polls the queue and then either throttles or spawns a worker.

Machine-level conventions of the embedding:

* Byte strings are `List Nat` with every element < 256; 32-bit words are
  `Nat` reduced modulo 2^32 at every arithmetic step, mirroring fixed-width
  overflow.
* Clock readings (`time.time()`) are natural numbers of seconds.  The
  Python expression `time.time() - last_request_time < 5` is modelled with
  truncated natural subtraction, which agrees with the Python float
  subtraction whenever `now` is at least `last_request_time` — always true
  for a monotone wall clock.
* The network is abstracted as a `NetBehavior` value (timeout, other
  transport exception, or a delivered JSON response).  A response is
  summarised by its HTTP status code and the optional `result` text field
  of its JSON body, which is all `app.py` ever inspects.
* The fire-and-forget worker thread spawned by `home` is linearised: its
  complete effect (either the busy-rejection write, or the
  accept/call/publish/clear cycle) is applied atomically at the spawn
  point, with the call outcome passed in as a parameter.
-/

set_option maxRecDepth 100000

namespace XhsApp

/-! ### 32-bit primitives and SHA-256 (for `get_auth_string`) -/

/-- Addition reduced to 32 bits. -/
def add32 (x y : Nat) : Nat := (x + y) % 4294967296

/-- Right rotation of a 32-bit word. -/
def rotr32 (n x : Nat) : Nat := ((x >>> n) ||| (x <<< (32 - n))) % 4294967296

/-- Bitwise complement of a 32-bit word. -/
def not32 (x : Nat) : Nat := 4294967295 ^^^ x

/-- SHA-256 choice function. -/
def shaCh (e f g : Nat) : Nat := (e &&& f) ^^^ (not32 e &&& g)

/-- SHA-256 majority function. -/
def shaMaj (a b c : Nat) : Nat := (a &&& b) ^^^ (a &&& c) ^^^ (b &&& c)

/-- SHA-256 big sigma 0. -/
def shaS0 (x : Nat) : Nat := rotr32 2 x ^^^ rotr32 13 x ^^^ rotr32 22 x

/-- SHA-256 big sigma 1. -/
def shaS1 (x : Nat) : Nat := rotr32 6 x ^^^ rotr32 11 x ^^^ rotr32 25 x

/-- SHA-256 small sigma 0. -/
def shaG0 (x : Nat) : Nat := rotr32 7 x ^^^ rotr32 18 x ^^^ (x >>> 3)

/-- SHA-256 small sigma 1. -/
def shaG1 (x : Nat) : Nat := rotr32 17 x ^^^ rotr32 19 x ^^^ (x >>> 10)

/-- SHA-256 round constants (decimal). -/
def shaK : List Nat :=
  [1116352408, 1899447441, 3049323471, 3921009573, 961987163, 1508970993,
   2453635748, 2870763221, 3624381080, 310598401, 607225278, 1426881987,
   1925078388, 2162078206, 2614888103, 3248222580, 3835390401, 4022224774,
   264347078, 604807628, 770255983, 1249150122, 1555081692, 1996064986,
   2554220882, 2821834349, 2952996808, 3210313671, 3336571891, 3584528711,
   113926993, 338241895, 666307205, 773529912, 1294757372, 1396182291,
   1695183700, 1986661051, 2177026350, 2456956037, 2730485921, 2820302411,
   3259730800, 3345764771, 3516065817, 3600352804, 4094571909, 275423344,
   430227734, 506948616, 659060556, 883997877, 958139571, 1322822218,
   1537002063, 1747873779, 1955562222, 2024104815, 2227730452, 2361852424,
   2428436474, 2756734187, 3204031479, 3329325298]

/-- SHA-256 initial hash value (decimal). -/
def shaH0 : List Nat :=
  [1779033703, 3144134277, 1013904242, 2773480762,
   1359893119, 2600822924, 528734635, 1541459225]

/-- Big-endian packing of bytes into 32-bit words. -/
def toWords : List Nat → List Nat
  | a :: b :: c :: d :: rest => (((a * 256 + b) * 256 + c) * 256 + d) :: toWords rest
  | _ => []

/-- Extend the 16 block words to the 64-entry message schedule; `rws` holds
the schedule computed so far, most recent word first. -/
def schedExtend : Nat → List Nat → List Nat
  | 0, rws => rws.reverse
  | fuel + 1, rws =>
      let w2 := rws.getD 1 0
      let w7 := rws.getD 6 0
      let w15 := rws.getD 14 0
      let w16 := rws.getD 15 0
      schedExtend fuel (add32 (add32 (shaG1 w2) w7) (add32 (shaG0 w15) w16) :: rws)

/-- One SHA-256 compression round on the state `[a, b, c, d, e, f, g, h]`. -/
def roundStep (st : List Nat) (kw : Nat × Nat) : List Nat :=
  match st with
  | [a, b, c, d, e, f, g, h] =>
      let t1 := add32 h (add32 (shaS1 e) (add32 (shaCh e f g) (add32 kw.1 kw.2)))
      let t2 := add32 (shaS0 a) (shaMaj a b c)
      [add32 t1 t2, a, b, c, add32 d t1, e, f, g]
  | other => other

/-- Compress one 64-byte block into the running hash. -/
def compressBlock (hs : List Nat) (block : List Nat) : List Nat :=
  let ws := schedExtend 48 (toWords block).reverse
  let st := (shaK.zip ws).foldl roundStep hs
  (hs.zip st).map (fun p => add32 p.1 p.2)

/-- Split a byte list into 64-byte blocks (`fuel` bounds the recursion). -/
def chunk64 : Nat → List Nat → List (List Nat)
  | 0, _ => []
  | fuel + 1, bytes =>
      match bytes with
      | [] => []
      | _ => bytes.take 64 :: chunk64 fuel (bytes.drop 64)

/-- Big-endian 8-byte encoding of a length in bits. -/
def lenBytes8 (n : Nat) : List Nat :=
  [n >>> 56 % 256, n >>> 48 % 256, n >>> 40 % 256, n >>> 32 % 256,
   n >>> 24 % 256, n >>> 16 % 256, n >>> 8 % 256, n % 256]

/-- SHA-256 padding: `0x80`, zeros to 56 mod 64, then the bit length. -/
def sha256pad (msg : List Nat) : List Nat :=
  let z := (119 - msg.length % 64) % 64
  msg ++ 0x80 :: List.replicate z 0 ++ lenBytes8 (msg.length * 8)

/-- Big-endian byte expansion of a 32-bit word. -/
def wordBytes (w : Nat) : List Nat := [w >>> 24 % 256, w >>> 16 % 256, w >>> 8 % 256, w % 256]

/-- SHA-256 of a byte list. -/
def sha256 (msg : List Nat) : List Nat :=
  let padded := sha256pad msg
  ((chunk64 padded.length padded).foldl compressBlock shaH0).map wordBytes |>.flatten

/-- HMAC-SHA256 as in RFC 2104 (and Python `hmac` with a sha256 digest). -/
def hmacSha256 (key msg : List Nat) : List Nat :=
  let k0 := if 64 < key.length then sha256 key else key
  let k := k0 ++ List.replicate (64 - k0.length) 0
  let ipad := k.map (fun b => b ^^^ 0x36)
  let opad := k.map (fun b => b ^^^ 0x5c)
  sha256 (opad ++ sha256 (ipad ++ msg))

/-! ### base64, UTF-8 and url-encoding (Python `base64.b64encode`,
`str.encode`, `urllib.parse.urlencode`) -/

/-- The standard base64 alphabet. -/
def b64Chars : List Char :=
  "ABCDEFGHIJKLMNOPQRSTUVWXYZabcdefghijklmnopqrstuvwxyz0123456789+/".data

/-- Character for a 6-bit group. -/
def b64Char (n : Nat) : Char := b64Chars.getD n (Char.ofNat 65)

/-- Base64 encoding of bytes, three at a time, with `=` padding. -/
def b64Chunks : List Nat → List Char
  | [] => []
  | [a] => [b64Char (a / 4), b64Char (a % 4 * 16), Char.ofNat 61, Char.ofNat 61]
  | [a, b] => [b64Char (a / 4), b64Char (a % 4 * 16 + b / 16), b64Char (b % 16 * 4), Char.ofNat 61]
  | a :: b :: c :: rest =>
      b64Char (a / 4) :: b64Char (a % 4 * 16 + b / 16) :: b64Char (b % 16 * 4 + c / 64) ::
        b64Char (c % 64) :: b64Chunks rest

/-- Base64 encoding of a byte list as a string. -/
def base64Encode (bytes : List Nat) : String := String.mk (b64Chunks bytes)

/-- UTF-8 encoding of one character. -/
def utf8EncodeChar (c : Char) : List Nat :=
  let n := c.toNat
  if n < 0x80 then [n]
  else if n < 0x800 then [0xc0 + n / 64, 0x80 + n % 64]
  else if n < 0x10000 then [0xe0 + n / 4096, 0x80 + n / 64 % 64, 0x80 + n % 64]
  else [0xf0 + n / 262144, 0x80 + n / 4096 % 64, 0x80 + n / 64 % 64, 0x80 + n % 64]

/-- UTF-8 bytes of a string (Python `s.encode("utf-8")`). -/
def strBytes (s : String) : List Nat := (s.data.map utf8EncodeChar).flatten

/-- Uppercase hexadecimal digit. -/
def hexUpper (n : Nat) : Char := if n < 10 then Char.ofNat (48 + n) else Char.ofNat (55 + n)

/-- Characters `urllib.parse.quote_plus` leaves unquoted: ASCII letters,
digits, and the always-safe punctuation of `urllib` (underscore, dot,
hyphen, tilde). -/
def urlSafe (c : Char) : Bool :=
  (65 ≤ c.toNat && c.toNat ≤ 90) || (97 ≤ c.toNat && c.toNat ≤ 122) ||
  (48 ≤ c.toNat && c.toNat ≤ 57) || c = Char.ofNat 95 || c = Char.ofNat 46 ||
  c = Char.ofNat 45 || c = Char.ofNat 126

/-- `quote_plus` on one character: space becomes plus, safe characters pass
through, everything else becomes percent-encoded UTF-8 bytes. -/
def quotePlusChar (c : Char) : List Char :=
  if c = Char.ofNat 32 then [Char.ofNat 43]
  else if urlSafe c then [c]
  else ((utf8EncodeChar c).map (fun b => [Char.ofNat 37, hexUpper (b / 16), hexUpper (b % 16)])).flatten

/-- Python `urllib.parse.quote_plus`. -/
def quote_plus (s : String) : String := String.mk ((s.data.map quotePlusChar).flatten)

/-- Python `urllib.parse.urlencode` on an ordered key/value list. -/
def urlencode (params : List (String × String)) : String :=
  String.intercalate "&" (params.map (fun kv => quote_plus kv.1 ++ "=" ++ quote_plus kv.2))

/-! ### Key-ordered sorting and dict update (Python `sorted` by key,
dict item assignment) -/

/-- Code-point lexicographic comparison of character lists, as Python
compares strings. -/
def charListLt : List Char → List Char → Bool
  | [], [] => false
  | [], _ :: _ => true
  | _ :: _, [] => false
  | a :: as, b :: bs =>
      if a.toNat < b.toNat then true
      else if b.toNat < a.toNat then false
      else charListLt as bs

/-- Python string comparison. -/
def strLt (a b : String) : Bool := charListLt a.data b.data

/-- Insert a pair into a key-sorted association list. -/
def insertByKey (p : String × String) : List (String × String) → List (String × String)
  | [] => [p]
  | q :: rest => if strLt q.1 p.1 then q :: insertByKey p rest else p :: q :: rest

/-- Sort an association list by key, as `sorted(params.items(), key=lambda item: item[0])`. -/
def sortByKey (l : List (String × String)) : List (String × String) :=
  l.foldr insertByKey []

/-- Python dict item assignment `d[k] = v` on an insertion-ordered
association list: overwrite in place if the key exists, else append. -/
def dictSet (d : List (String × String)) (k v : String) : List (String × String) :=
  if d.any (fun kv => kv.1 = k) then d.map (fun kv => if kv.1 = k then (k, v) else kv)
  else d ++ [(k, v)]

/-! ### `get_auth_string` (app.py lines 64-72) -/

/-- Embedding of `get_auth_string(ak, sk, method, host, path, params)`.
The wall-clock second used for the timestamp is passed in as `now`, since
the Python code reads `int(time.time())` itself. -/
def get_auth_string (ak sk method host path : String) (params : List (String × String))
    (now : Nat) : String :=
  let timestamp := toString now
  let params1 := dictSet params "access_token" ak
  let params2 := dictSet params1 "timestamp" timestamp
  let sorted_params := sortByKey params2
  let query_string := urlencode sorted_params
  let string_to_sign := method ++ "\n" ++ host ++ "\n" ++ path ++ "\n" ++ query_string
  let signature := base64Encode (hmacSha256 (strBytes sk) (strBytes string_to_sign))
  "bce-auth-v1/" ++ ak ++ "/" ++ timestamp ++ "/" ++ signature

/-! ### Sanity anchors for the crypto stack: published test vectors -/

/-- FIPS 180-4 vector: SHA-256 of the empty message. -/
theorem sha256_vector_empty : sha256 [] =
    [0xe3, 0xb0, 0xc4, 0x42, 0x98, 0xfc, 0x1c, 0x14, 0x9a, 0xfb, 0xf4, 0xc8, 0x99, 0x6f, 0xb9, 0x24,
     0x27, 0xae, 0x41, 0xe4, 0x64, 0x9b, 0x93, 0x4c, 0xa4, 0x95, 0x99, 0x1b, 0x78, 0x52, 0xb8, 0x55] := by
  decide

/-- FIPS 180-4 vector: SHA-256 of the three-byte message abc. -/
theorem sha256_vector_abc : sha256 [0x61, 0x62, 0x63] =
    [0xba, 0x78, 0x16, 0xbf, 0x8f, 0x01, 0xcf, 0xea, 0x41, 0x41, 0x40, 0xde, 0x5d, 0xae, 0x22, 0x23,
     0xb0, 0x03, 0x61, 0xa3, 0x96, 0x17, 0x7a, 0x9c, 0xb4, 0x10, 0xff, 0x61, 0xf2, 0x00, 0x15, 0xad] := by
  decide

/-- RFC 4231 test case 1 for HMAC-SHA256 (key of twenty 0x0b bytes,
message Hi There). -/
theorem hmac_vector_rfc4231 :
    hmacSha256 (List.replicate 20 0x0b) [0x48, 0x69, 0x20, 0x54, 0x68, 0x65, 0x72, 0x65] =
    [0xb0, 0x34, 0x4c, 0x61, 0xd8, 0xdb, 0x38, 0x53, 0x5c, 0xa8, 0xaf, 0xce, 0xaf, 0x0b, 0xf1, 0x2b,
     0x88, 0x1d, 0xc2, 0x00, 0xc9, 0x83, 0x3d, 0xa7, 0x26, 0xe9, 0x37, 0x6c, 0x2e, 0x32, 0xcf, 0xf7] := by
  decide

/-- Base64 vectors for all three padding shapes. -/
theorem base64_vectors :
    base64Encode [0x4d, 0x61, 0x6e] = "TWFu" ∧
    base64Encode [0x4d, 0x61] = "TWE=" ∧
    base64Encode [0x4d] = "TQ==" := by
  constructor
  · decide
  constructor
  · decide
  · decide

/-- url-encoding behaves as urllib: space to plus, slash percent-encoded,
non-ASCII percent-encoded per UTF-8 byte. -/
theorem urlencode_vector :
    urlencode [("a b", "x/y"), ("c", "请")] = "a+b=x%2Fy&c=%E8%AF%B7" := by
  decide

/-- Regression fixture for the signing path, computed independently with
the reference implementations of HMAC-SHA256, base64 and urlencode: the
full authorization string for fixed credentials and timestamp. -/
theorem get_auth_string_fixture :
    get_auth_string "myak" "mysk" "POST" "aip.baidubce.com"
      "/rpc/2.0/ai_custom/v1/wenxinworkshop/chat/completions" [] 1700000000 =
    "bce-auth-v1/myak/1700000000/PiY7o0OMr+IdkcQNgtyO15eUXtg4U9rRbpjpOut6Q+o=" := by
  decide

/-! ### Python line splitting and stripping (app.py line 124) -/

/-- Characters Python `str.strip()` removes: the Unicode whitespace set of
`str.isspace`. -/
def isPySpace (c : Char) : Bool :=
  let n := c.toNat
  n = 32 || (9 ≤ n && n ≤ 13) || (28 ≤ n && n ≤ 31) || n = 133 || n = 160 ||
  n = 5760 || (8192 ≤ n && n ≤ 8202) || n = 8232 || n = 8233 || n = 8239 || n = 8287 || n = 12288

/-- Strip leading and trailing whitespace from a character list. -/
def stripChars (s : List Char) : List Char :=
  ((s.dropWhile isPySpace).reverse.dropWhile isPySpace).reverse

/-- Python `s.strip()`. -/
def pyStrip (s : String) : String := String.mk (stripChars s.data)

/-- Split a character list at newline characters; Python `s.split("\n")`
on the character level (the empty input yields one empty field). -/
def splitLines : List Char → List (List Char)
  | [] => [[]]
  | c :: rest =>
      match splitLines rest with
      | [] => [[c]]
      | l :: ls => if c = Char.ofNat 10 then [] :: l :: ls else (c :: l) :: ls

/-- Python `s.split("\n")`. -/
def pySplit (text : String) : List String := (splitLines text.data).map String.mk

/-- The title parsing of app.py line 124:
list comprehension over the split of the `result` field, keeping the
stripped form of every line whose stripped form is non-empty. -/
def parseTitles (text : String) : List String :=
  ((pySplit text).map pyStrip).filter (fun t => t ≠ "")

/-! ### Controller data model (app.py lines 24-26, 101-176) -/

/-- A result record as placed on `result_queue`: the dict
with keys product, titles, error built at lines 106-110, 122-126,
128-132 and 134-138. -/
structure GenResult where
  product : String
  titles : Option (List String)
  error : Option String
deriving Repr, DecidableEq

/-- The process-wide mutable state: `result_queue`, `request_in_progress`
and `last_request_time` (app.py lines 24-26). -/
structure AppState where
  result_queue : List GenResult
  request_in_progress : Bool
  last_request_time : Nat
deriving Repr, DecidableEq

/-- The state at process start: empty queue, not in flight, epoch zero. -/
def initState : AppState :=
  { result_queue := [], request_in_progress := false, last_request_time := 0 }

/-- Abstraction of what the network does for one `requests.post` call:
a timeout, some other transport or JSON-decoding exception (with the
exception text), or a delivered response summarised by its HTTP status
code and the optional `result` text field of its JSON body. -/
inductive NetBehavior where
  | timeout : NetBehavior
  | failure : String → NetBehavior
  | response : Nat → Option String → NetBehavior
deriving Repr, DecidableEq

/-- Outcome of the (decorated) `call_qianfan_api` as seen by its caller:
the parsed JSON (status code and optional `result` field), a Python
`TimeoutError` with its message, or a generic exception with its message. -/
inductive CallOutcome where
  | ok : Nat → Option String → CallOutcome
  | timeoutError : String → CallOutcome
  | error : String → CallOutcome
deriving Repr, DecidableEq

/-- The absolute deadline of the `with_timeout` decorator (app.py line 74). -/
def WITH_TIMEOUT_SECONDS : Nat := 25

/-- The connect timeout of `requests.post` (app.py line 91). -/
def CONNECT_TIMEOUT_SECONDS : Nat := 5

/-- The read timeout of `requests.post` (app.py line 91). -/
def READ_TIMEOUT_SECONDS : Nat := 20

/-- The minimum interval of the throttle check (app.py line 160). -/
def THROTTLE_SECONDS : Nat := 5

/-- Embedding of the body of `call_qianfan_api` (app.py lines 88-99):
a `requests` timeout is re-raised as `TimeoutError` with the Chinese retry
message, any other exception is wrapped with the API-failure prefix, and a
delivered response is returned as `response.json()` — the status code is
never inspected. -/
def call_qianfan_api : NetBehavior → CallOutcome
  | NetBehavior.timeout => CallOutcome.timeoutError "API请求超时，请稍后重试"
  | NetBehavior.failure msg => CallOutcome.error ("API请求失败: " ++ msg)
  | NetBehavior.response status result_field => CallOutcome.ok status result_field

/-- Embedding of the `with_timeout(25)` decorator (app.py lines 37-62):
if the wrapped call does not finish within the deadline (`timedOut`), a
`TimeoutError` with the fixed English message is raised; otherwise the
inner outcome (value or re-raised exception) passes through. -/
def with_timeout (timedOut : Bool) (inner : CallOutcome) : CallOutcome :=
  if timedOut then
    CallOutcome.timeoutError ("Function timed out after " ++ toString WITH_TIMEOUT_SECONDS ++ " seconds")
  else inner

/-- The busy-rejection record of app.py lines 106-110. -/
def busyResult (product : String) : GenResult :=
  { product := product, titles := none, error := some "已有请求在处理中，请稍后再试" }

/-- The record published for one completed call (app.py lines 116-138):
on success the parsed titles; if the JSON body lacks the `result` field,
the `KeyError` falls into the generic handler with the message
`API请求失败: 'result'`; a `TimeoutError` (from either timeout layer)
yields the retry message; any other exception is prefixed with the
API-failure text. -/
def mkResult (product : String) : CallOutcome → GenResult
  | CallOutcome.ok _status (some text) =>
      { product := product, titles := some (parseTitles text), error := none }
  | CallOutcome.ok _status none =>
      { product := product, titles := none, error := some "API请求失败: \x27result\x27" }
  | CallOutcome.timeoutError _msg =>
      { product := product, titles := none, error := some "API请求超时，请稍后重试" }
  | CallOutcome.error msg =>
      { product := product, titles := none, error := some ("API请求失败: " ++ msg) }

/-- Embedding of `generate_titles_async` (app.py lines 101-140), the whole
run of the worker linearised at its start time `now`, with the decorated
API call outcome supplied as `call`.  If a request is already in progress
the busy record is queued and nothing else changes; otherwise the flag is
raised, `last_request_time` is recorded, the call result is published, and
the `finally` clause lowers the flag again. -/
def generate_titles_async (s : AppState) (product : String) (now : Nat)
    (call : CallOutcome) : AppState :=
  if s.request_in_progress then
    { s with result_queue := s.result_queue ++ [busyResult product] }
  else
    { s with result_queue := s.result_queue ++ [mkResult product call],
             request_in_progress := false,
             last_request_time := now }

/-- What the POST handler renders (app.py lines 146-176): the
empty-product error, an error banner, an informational banner, or the
titles page. -/
inductive Render where
  | errorBanner : String → Render
  | infoBanner : String → Render
  | titlesPage : Option (List String) → String → Render
deriving Repr, DecidableEq

/-- Python truthiness of `result["error"]`: `None` and the empty string
are falsy. -/
def errTruthy : Option String → Bool
  | none => false
  | some e => e ≠ ""

/-- The poll step of the POST handler (app.py lines 151-157): if the queue
is non-empty its head is taken unconditionally; it is delivered only when
its product matches the requested one, otherwise it has still been removed
and is dropped. -/
def pollFor (s : AppState) (product : String) : Option GenResult × AppState :=
  match s.result_queue with
  | [] => (none, s)
  | r :: rest =>
      if r.product = product then (some r, { s with result_queue := rest })
      else (none, { s with result_queue := rest })

/-- The submit step of the POST handler (app.py lines 159-174): throttle
when fewer than five seconds have passed since `last_request_time`,
otherwise spawn the worker (linearised here) and render the
generation-in-progress banner. -/
def submit (s : AppState) (product : String) (now : Nat) (call : CallOutcome) :
    Render × AppState :=
  if now - s.last_request_time < THROTTLE_SECONDS then
    (Render.infoBanner "操作过于频繁，请稍后再试", s)
  else
    (Render.infoBanner "标题生成中，请稍后刷新页面...", generate_titles_async s product now call)

/-- The whole POST branch of `home` (app.py lines 146-174): reject an
empty product, otherwise poll the queue first; a matching result is
rendered (error banner when its error field is truthy, titles page
otherwise); with no matching result, fall through to the submit step. -/
def home (s : AppState) (product : String) (now : Nat) (call : CallOutcome) :
    Render × AppState :=
  if product = "" then (Render.errorBanner "请输入产品名称！", s)
  else
    match pollFor s product with
    | (some r, s1) =>
        if errTruthy r.error then (Render.errorBanner (r.error.getD ""), s1)
        else (Render.titlesPage r.titles product, s1)
    | (none, s1) => submit s1 product now call

/-! ### Helper lemmas -/

/-- Every published record carries the product it was created for. -/
theorem mkResult_product (p : String) (c : CallOutcome) : (mkResult p c).product = p := by
  cases c with
  | ok st rf => cases rf <;> rfl
  | timeoutError m => rfl
  | error m => rfl

/-! ### Claims -/

/-- Claim C3: for every accepted submission (the in-flight flag is down
when the worker starts), whatever the call outcome — success, timeout, or
any error — the worker leaves the in-flight flag down again, records the
acceptance time in `last_request_time`, and appends exactly one result
record, carrying the submitted product, to the result queue. -/
theorem C3 (s : AppState) (product : String) (now : Nat) (call : CallOutcome)
    (h : s.request_in_progress = false) :
    (generate_titles_async s product now call).request_in_progress = false ∧
    (generate_titles_async s product now call).last_request_time = now ∧
    (generate_titles_async s product now call).result_queue =
      s.result_queue ++ [mkResult product call] ∧
    (mkResult product call).product = product := by
  simp [generate_titles_async, h, mkResult_product]

/-- Witness for C3 at a concrete idle state and a concrete successful
call outcome. -/
theorem C3_witness :
    (generate_titles_async initState "茶" 7 (CallOutcome.ok 200 (some "A\nB"))).request_in_progress = false ∧
    (generate_titles_async initState "茶" 7 (CallOutcome.ok 200 (some "A\nB"))).last_request_time = 7 ∧
    (generate_titles_async initState "茶" 7 (CallOutcome.ok 200 (some "A\nB"))).result_queue =
      initState.result_queue ++ [mkResult "茶" (CallOutcome.ok 200 (some "A\nB"))] ∧
    (mkResult "茶" (CallOutcome.ok 200 (some "A\nB"))).product = "茶" :=
  C3 initState "茶" 7 (CallOutcome.ok 200 (some "A\nB")) rfl

/-- Claim C4: the result parsing splits the text field on newlines, strips
each line, drops the blank lines and preserves the order of the rest; on
the text Title A, Title B, blank, Title C it returns exactly the three
titles in order. -/
theorem C4 :
    parseTitles "Title A\nTitle B\n\nTitle C" = ["Title A", "Title B", "Title C"] ∧
    (∀ text : String, List.Sublist (parseTitles text) ((pySplit text).map pyStrip)) ∧
    (∀ text : String, (parseTitles text).all (fun t => t ≠ "") = true) := by
  refine ⟨by decide, fun text => List.filter_sublist _, fun text => ?_⟩
  rw [List.all_eq_true]
  intro t ht
  simp only [parseTitles] at ht
  exact (List.mem_filter.mp ht).2

/-- Claim C9: the poll step never delivers a result for a different
product: a delivered record has the requested product, and the step
returns nothing both on an empty queue and when the queued head was
produced for a different product. -/
theorem C9 (s : AppState) (p : String) :
    (∀ r : GenResult, (pollFor s p).1 = some r → r.product = p) ∧
    (s.result_queue = [] → pollFor s p = (none, s)) ∧
    (∀ (r : GenResult) (rest : List GenResult),
      s.result_queue = r :: rest → r.product ≠ p → (pollFor s p).1 = none) := by
  refine ⟨?_, ?_, ?_⟩
  · intro r h
    rcases hq : s.result_queue with _ | ⟨r0, rest⟩ <;> rw [pollFor, hq] at h
    · simp at h
    · by_cases hp : r0.product = p
      · simp [hp] at h
        rw [← h]
        exact hp
      · simp [hp] at h
  · intro hq
    rw [pollFor, hq]
  · intro r rest hq hne
    rw [pollFor, hq]
    simp [hne]

/-- Witness for C9: with an empty queue the poll returns nothing and
leaves the state alone; with a queued record for product B, a poll for
product A returns nothing. -/
theorem C9_witness :
    pollFor initState "A" = (none, initState) ∧
    (pollFor { result_queue := [{ product := "B", titles := none, error := none }],
               request_in_progress := false, last_request_time := 0 } "A").1 = none :=
  ⟨(C9 initState "A").2.1 rfl,
   (C9 { result_queue := [{ product := "B", titles := none, error := none }],
         request_in_progress := false, last_request_time := 0 } "A").2.2
     { product := "B", titles := none, error := none } [] rfl (by decide)⟩

/-- Claim C10: when the queued head was produced for a different product,
the poll step still removes it from the queue and discards it: the step
returns nothing, the new state holds only the tail, and (unless an equal
record sits further back) the record is gone from the queue for every
later poll. -/
theorem C10 (s : AppState) (p : String) (r : GenResult) (rest : List GenResult)
    (hq : s.result_queue = r :: rest) (hne : r.product ≠ p) :
    pollFor s p = (none, { s with result_queue := rest }) ∧
    (r ∉ rest → r ∉ (pollFor s p).2.result_queue) := by
  rw [pollFor, hq]
  simp [hne]

/-- Witness for C10: a record for product B pending in the queue is
removed and dropped by a poll for product A. -/
theorem C10_witness :
    pollFor { result_queue := [{ product := "B", titles := some ["t"], error := none }],
              request_in_progress := false, last_request_time := 3 } "A" =
      (none, { result_queue := [], request_in_progress := false, last_request_time := 3 }) ∧
    (({ product := "B", titles := some ["t"], error := none } : GenResult) ∉ ([] : List GenResult) →
      ({ product := "B", titles := some ["t"], error := none } : GenResult) ∉
        (pollFor { result_queue := [{ product := "B", titles := some ["t"], error := none }],
                   request_in_progress := false, last_request_time := 3 } "A").2.result_queue) :=
  C10 { result_queue := [{ product := "B", titles := some ["t"], error := none }],
        request_in_progress := false, last_request_time := 3 } "A"
    { product := "B", titles := some ["t"], error := none } [] rfl (by decide)

/-- Updating a dict key that is absent appends the pair. -/
theorem dictSet_append (d : List (String × String)) (k v : String)
    (h : ∀ kv ∈ d, kv.1 ≠ k) : dictSet d k v = d ++ [(k, v)] := by
  have ha : ¬ (d.any (fun kv => kv.1 = k) = true) := by
    simp only [List.any_eq_true, decide_eq_true_eq]
    rintro ⟨kv, hkv, hk⟩
    exact h kv hkv hk
  unfold dictSet
  rw [if_neg ha]

/-- When the POST handler is reached with a non-empty product, an empty
queue, the in-flight flag up and the throttle window already expired, the
spawned worker immediately queues the busy record and nothing else
changes. -/
theorem home_busy_spawn (s : AppState) (p : String) (now : Nat) (c : CallOutcome)
    (hp : p ≠ "") (hin : s.request_in_progress = true) (hq : s.result_queue = [])
    (ht : THROTTLE_SECONDS ≤ now - s.last_request_time) :
    home s p now c =
      (Render.infoBanner "标题生成中，请稍后刷新页面...",
       { s with result_queue := [busyResult p] }) := by
  have hnl : ¬ (now - s.last_request_time < THROTTLE_SECONDS) := not_lt.mpr ht
  simp only [home, pollFor, submit, generate_titles_async, hq, hin, hp, hnl,
    if_true, if_false, ite_false, ite_true, List.nil_append]

/-- Claim C2: a submit reaching the throttle check less than five seconds
after the recorded `last_request_time` of an accepted submission is
rejected with the too-frequent informational banner, starts no work and
changes no state; and since `last_request_time` starts at zero, the very
first submission of the process (at any wall-clock second of at least
five) is never throttled. -/
theorem C2 :
    (∀ (s : AppState) (p p2 : String) (now1 now2 : Nat) (call1 call2 : CallOutcome),
      s.request_in_progress = false → s.result_queue = [] →
      THROTTLE_SECONDS ≤ now1 - s.last_request_time → now2 - now1 < THROTTLE_SECONDS →
      (submit s p now1 call1).1 = Render.infoBanner "标题生成中，请稍后刷新页面..." ∧
      (submit s p now1 call1).2.last_request_time = now1 ∧
      submit (submit s p now1 call1).2 p2 now2 call2 =
        (Render.infoBanner "操作过于频繁，请稍后再试", (submit s p now1 call1).2)) ∧
    initState.last_request_time = 0 ∧
    (∀ (p : String) (now : Nat) (call : CallOutcome), THROTTLE_SECONDS ≤ now →
      (submit initState p now call).1 = Render.infoBanner "标题生成中，请稍后刷新页面...") := by
  refine ⟨?_, rfl, ?_⟩
  · intro s p p2 now1 now2 c1 c2 hidle hq h5 hlt
    have hn1 : ¬ (now1 - s.last_request_time < THROTTLE_SECONDS) := not_lt.mpr h5
    have hsub : submit s p now1 c1 =
        (Render.infoBanner "标题生成中，请稍后刷新页面...", generate_titles_async s p now1 c1) := by
      rw [submit, if_neg hn1]
    have hgta : generate_titles_async s p now1 c1 =
        { s with result_queue := s.result_queue ++ [mkResult p c1],
                 request_in_progress := false, last_request_time := now1 } := by
      rw [generate_titles_async, if_neg (by simp [hidle])]
    refine ⟨by rw [hsub], by rw [hsub, hgta], ?_⟩
    rw [hsub]
    show submit (generate_titles_async s p now1 c1) p2 now2 c2 = _
    rw [submit, hgta]
    simp only [if_pos hlt]
  · intro p now c h5
    have hn : ¬ (now - initState.last_request_time < THROTTLE_SECONDS) := by
      simp only [initState, Nat.sub_zero]
      exact not_lt.mpr h5
    rw [submit, if_neg hn]

/-- Witness for C2: in the initial state a first submit at second 10 is
accepted and records time 10, a second submit at second 12 is throttled
with the state untouched; and the very first submission at second 9 is
not throttled. -/
theorem C2_witness :
    ((submit initState "A" 10 (CallOutcome.ok 200 (some "T"))).1 =
        Render.infoBanner "标题生成中，请稍后刷新页面..." ∧
      (submit initState "A" 10 (CallOutcome.ok 200 (some "T"))).2.last_request_time = 10 ∧
      submit (submit initState "A" 10 (CallOutcome.ok 200 (some "T"))).2 "A" 12
          (CallOutcome.ok 200 (some "U")) =
        (Render.infoBanner "操作过于频繁，请稍后再试",
         (submit initState "A" 10 (CallOutcome.ok 200 (some "T"))).2)) ∧
    (submit initState "B" 9 (CallOutcome.ok 200 (some "T"))).1 =
      Render.infoBanner "标题生成中，请稍后刷新页面..." :=
  ⟨C2.1 initState "A" "A" 10 12 (CallOutcome.ok 200 (some "T")) (CallOutcome.ok 200 (some "U"))
      rfl rfl (by decide) (by decide),
   C2.2.2 "B" 9 (CallOutcome.ok 200 (some "T")) (by decide)⟩

/-- Claim C1 counterexample: with the in-flight flag up and only two
seconds elapsed since `last_request_time`, a submit for product A is
answered with the too-frequent throttle banner and the queue stays
empty — no busy record with the
another-request-in-progress error is produced anywhere, contradicting the
claim that an in-flight submit always produces that record. -/
theorem C1_counterexample :
    home { result_queue := [], request_in_progress := true, last_request_time := 6 } "A" 8
        (CallOutcome.ok 200 (some "T")) =
      (Render.infoBanner "操作过于频繁，请稍后再试",
       { result_queue := [], request_in_progress := true, last_request_time := 6 }) := by
  decide

/-- Claim C1 as amended: an in-flight submit produces the busy record only
when it also passes the throttle check (at least five seconds since
`last_request_time`); in that case the record with the
another-request-in-progress error is queued, no remote work is started
(the outcome is independent of the call parameter), and both
`last_request_time` and the in-flight flag are unchanged. -/
theorem C1_amended (s : AppState) (p : String) (now : Nat) (call call2 : CallOutcome)
    (hp : p ≠ "") (hin : s.request_in_progress = true) (hq : s.result_queue = [])
    (ht : THROTTLE_SECONDS ≤ now - s.last_request_time) :
    (home s p now call).2.result_queue = [busyResult p] ∧
    (busyResult p).error = some "已有请求在处理中，请稍后再试" ∧
    (home s p now call).2.request_in_progress = s.request_in_progress ∧
    (home s p now call).2.last_request_time = s.last_request_time ∧
    home s p now call = home s p now call2 := by
  rw [home_busy_spawn s p now call hp hin hq ht, home_busy_spawn s p now call2 hp hin hq ht]
  exact ⟨rfl, rfl, rfl, rfl, rfl⟩

/-- Witness for the amended C1 at a concrete in-flight state past the
throttle window. -/
theorem C1_witness :
    (home { result_queue := [], request_in_progress := true, last_request_time := 2 } "A" 9
        (CallOutcome.ok 200 (some "T"))).2.result_queue = [busyResult "A"] ∧
    (busyResult "A").error = some "已有请求在处理中，请稍后再试" ∧
    (home { result_queue := [], request_in_progress := true, last_request_time := 2 } "A" 9
        (CallOutcome.ok 200 (some "T"))).2.request_in_progress =
      ({ result_queue := [], request_in_progress := true, last_request_time := 2 } : AppState).request_in_progress ∧
    (home { result_queue := [], request_in_progress := true, last_request_time := 2 } "A" 9
        (CallOutcome.ok 200 (some "T"))).2.last_request_time =
      ({ result_queue := [], request_in_progress := true, last_request_time := 2 } : AppState).last_request_time ∧
    home { result_queue := [], request_in_progress := true, last_request_time := 2 } "A" 9
        (CallOutcome.ok 200 (some "T")) =
      home { result_queue := [], request_in_progress := true, last_request_time := 2 } "A" 9
        (CallOutcome.error "x") :=
  C1_amended { result_queue := [], request_in_progress := true, last_request_time := 2 } "A" 9
    (CallOutcome.ok 200 (some "T")) (CallOutcome.error "x") (by decide) rfl rfl (by decide)

/-- Claim C7 counterexample: with a submission in flight (flag up, queue
empty, throttle window expired), a second submit for product B is answered
only with the generic generation-in-progress banner, while the busy
rejection record is placed into the result channel — the busy rejection is
not returned synchronously and is queued, contradicting the claim. -/
theorem C7_counterexample :
    (home { result_queue := [], request_in_progress := true, last_request_time := 0 } "B" 10
        (CallOutcome.ok 200 (some "T"))).2.result_queue = [busyResult "B"] ∧
    (home { result_queue := [], request_in_progress := true, last_request_time := 0 } "B" 10
        (CallOutcome.ok 200 (some "T"))).1 =
      Render.infoBanner "标题生成中，请稍后刷新页面..." := by
  decide

/-- Claim C7 as amended: a second submission while one is outstanding is
rejected asynchronously — the caller gets the generation-in-progress
banner, the busy record is written to the result channel, and a later
poll for the same product delivers it as the busy error banner. -/
theorem C7_amended (s : AppState) (p : String) (now now2 : Nat) (call call2 : CallOutcome)
    (hp : p ≠ "") (hin : s.request_in_progress = true) (hq : s.result_queue = [])
    (ht : THROTTLE_SECONDS ≤ now - s.last_request_time) :
    (home s p now call).1 = Render.infoBanner "标题生成中，请稍后刷新页面..." ∧
    (home s p now call).2.result_queue = [busyResult p] ∧
    (home (home s p now call).2 p now2 call2).1 =
      Render.errorBanner "已有请求在处理中，请稍后再试" := by
  rw [home_busy_spawn s p now call hp hin hq ht]
  refine ⟨rfl, rfl, ?_⟩
  rw [home, if_neg hp]
  have hpoll : pollFor { s with result_queue := [busyResult p] } p =
      (some (busyResult p), { s with result_queue := [] }) := by
    simp [pollFor, busyResult]
  rw [hpoll]
  simp [errTruthy, busyResult]

/-- Witness for the amended C7 at a concrete in-flight state. -/
theorem C7_witness :
    (home { result_queue := [], request_in_progress := true, last_request_time := 0 } "B" 7
        (CallOutcome.ok 200 (some "T"))).1 = Render.infoBanner "标题生成中，请稍后刷新页面..." ∧
    (home { result_queue := [], request_in_progress := true, last_request_time := 0 } "B" 7
        (CallOutcome.ok 200 (some "T"))).2.result_queue = [busyResult "B"] ∧
    (home (home { result_queue := [], request_in_progress := true, last_request_time := 0 } "B" 7
        (CallOutcome.ok 200 (some "T"))).2 "B" 8 (CallOutcome.ok 200 (some "U"))).1 =
      Render.errorBanner "已有请求在处理中，请稍后再试" :=
  C7_amended { result_queue := [], request_in_progress := true, last_request_time := 0 } "B" 7 8
    (CallOutcome.ok 200 (some "T")) (CallOutcome.ok 200 (some "U")) (by decide) rfl rfl (by decide)

/-- Claim C5: for every key id, secret, method, host, path, extra
parameter list (not already carrying the reserved keys) and timestamp, the
computed authorization string is the bce-auth-v1 scheme: the key id and
timestamp, then the base64 of the HMAC-SHA256 (keyed by the secret) of the
canonical string METHOD, HOST, PATH and the key-sorted url-encoded query
of the parameters extended with the access token and the timestamp,
newline-separated. -/
theorem C5 (ak sk method host path : String) (params : List (String × String)) (now : Nat)
    (h1 : ∀ kv ∈ params, kv.1 ≠ "access_token") (h2 : ∀ kv ∈ params, kv.1 ≠ "timestamp") :
    get_auth_string ak sk method host path params now =
      "bce-auth-v1/" ++ ak ++ "/" ++ toString now ++ "/" ++
        base64Encode (hmacSha256 (strBytes sk)
          (strBytes (method ++ "\n" ++ host ++ "\n" ++ path ++ "\n" ++
            urlencode (sortByKey
              (params ++ [("access_token", ak), ("timestamp", toString now)]))))) := by
  have e1 : dictSet params "access_token" ak = params ++ [("access_token", ak)] :=
    dictSet_append params "access_token" ak h1
  have h2x : ∀ kv ∈ params ++ [("access_token", ak)], kv.1 ≠ "timestamp" := by
    intro kv hkv
    rcases List.mem_append.mp hkv with hin | hin
    · exact h2 kv hin
    · simp only [List.mem_singleton] at hin
      rw [hin]
      show ("access_token" : String) ≠ "timestamp"
      decide
  have e2 : dictSet (params ++ [("access_token", ak)]) "timestamp" (toString now) =
      params ++ [("access_token", ak)] ++ [("timestamp", toString now)] :=
    dictSet_append (params ++ [("access_token", ak)]) "timestamp" (toString now) h2x
  simp only [get_auth_string, e1, e2, List.append_assoc, List.singleton_append]

/-- Witness for C5: the signing equation instantiated at concrete
credentials, host, path, empty extra parameters and a fixed timestamp. -/
theorem C5_witness :
    get_auth_string "myak" "mysk" "POST" "aip.baidubce.com"
        "/rpc/2.0/ai_custom/v1/wenxinworkshop/chat/completions" [] 1700000000 =
      "bce-auth-v1/" ++ "myak" ++ "/" ++ toString 1700000000 ++ "/" ++
        base64Encode (hmacSha256 (strBytes "mysk")
          (strBytes ("POST" ++ "\n" ++ "aip.baidubce.com" ++ "\n" ++
            "/rpc/2.0/ai_custom/v1/wenxinworkshop/chat/completions" ++ "\n" ++
            urlencode (sortByKey
              ([] ++ [("access_token", "myak"), ("timestamp", toString 1700000000)]))))) :=
  C5 "myak" "mysk" "POST" "aip.baidubce.com"
    "/rpc/2.0/ai_custom/v1/wenxinworkshop/chat/completions" [] 1700000000
    (by simp) (by simp)

/-- Claim C6 counterexample: a delivered response with HTTP status 500
whose JSON body does carry a result field is passed through by the client
with no exception, and the published record is a success with no error at
all — the client never fails with an error carrying the non-200 status
code. -/
theorem C6_counterexample :
    call_qianfan_api (NetBehavior.response 500 (some "Title")) =
      CallOutcome.ok 500 (some "Title") ∧
    mkResult "A" (call_qianfan_api (NetBehavior.response 500 (some "Title"))) =
      { product := "A", titles := some ["Title"], error := none } := by
  constructor
  · rfl
  · decide

/-- Claim C6 as amended: the client raises the timeout error exactly on a
network timeout and wraps any other transport failure with the generic
API-failure prefix; it never inspects the HTTP status code, so any
delivered response is returned unchanged whatever its status; a response
body without the result field surfaces later, in the worker, as the
generic API-failure error naming the missing key rather than a
malformed-response error with the status. -/
theorem C6_amended :
    call_qianfan_api NetBehavior.timeout = CallOutcome.timeoutError "API请求超时，请稍后重试" ∧
    (∀ msg : String,
      call_qianfan_api (NetBehavior.failure msg) = CallOutcome.error ("API请求失败: " ++ msg)) ∧
    (∀ (status : Nat) (rf : Option String),
      call_qianfan_api (NetBehavior.response status rf) = CallOutcome.ok status rf) ∧
    (∀ (p : String) (status : Nat),
      mkResult p (CallOutcome.ok status none) =
        { product := p, titles := none, error := some "API请求失败: \x27result\x27" }) :=
  ⟨rfl, fun _ => rfl, fun _ _ => rfl, fun _ _ => rfl⟩

/-- Claim C8: the network-level connect (5s) and read (20s) timeouts are
strictly below the absolute 25-second deadline of the decorator; an
expired deadline turns every inner outcome into the fixed TimeoutError;
every TimeoutError — whichever timeout layer raised it — is published as
the timeout-message record, never an unhandled exception; and for an
accepted submission whose decorated call hit the deadline, the queued,
poll-visible outcome is exactly that timeout record. -/
theorem C8 :
    CONNECT_TIMEOUT_SECONDS < WITH_TIMEOUT_SECONDS ∧
    READ_TIMEOUT_SECONDS < WITH_TIMEOUT_SECONDS ∧
    (∀ inner : CallOutcome, with_timeout true inner =
      CallOutcome.timeoutError
        ("Function timed out after " ++ toString WITH_TIMEOUT_SECONDS ++ " seconds")) ∧
    (∀ p msg : String,
      mkResult p (CallOutcome.timeoutError msg) =
        { product := p, titles := none, error := some "API请求超时，请稍后重试" }) ∧
    (∀ (s : AppState) (p : String) (now : Nat) (inner : CallOutcome),
      s.request_in_progress = false → s.result_queue = [] →
      (generate_titles_async s p now (with_timeout true inner)).result_queue =
        [{ product := p, titles := none, error := some "API请求超时，请稍后重试" }] ∧
      (pollFor (generate_titles_async s p now (with_timeout true inner)) p).1 =
        some { product := p, titles := none, error := some "API请求超时，请稍后重试" }) := by
  refine ⟨by decide, by decide, fun inner => rfl, fun p msg => rfl, ?_⟩
  intro s p now inner hidle hq
  have hgta : (generate_titles_async s p now (with_timeout true inner)).result_queue =
      [{ product := p, titles := none, error := some "API请求超时，请稍后重试" }] := by
    rw [generate_titles_async, if_neg (by simp [hidle])]
    simp only [hq, List.nil_append]
    rfl
  refine ⟨hgta, ?_⟩
  rw [pollFor, hgta]
  simp

/-- Witness for C8 at the initial state with an arbitrary inner outcome
behind an expired deadline. -/
theorem C8_witness :
    (generate_titles_async initState "奶茶" 30
        (with_timeout true (CallOutcome.ok 200 (some "T")))).result_queue =
      [{ product := "奶茶", titles := none, error := some "API请求超时，请稍后重试" }] ∧
    (pollFor (generate_titles_async initState "奶茶" 30
        (with_timeout true (CallOutcome.ok 200 (some "T")))) "奶茶").1 =
      some { product := "奶茶", titles := none, error := some "API请求超时，请稍后重试" } :=
  C8.2.2.2.2 initState "奶茶" 30 (CallOutcome.ok 200 (some "T")) rfl rfl

end XhsApp
